import Mathlib

/-!
Verification model of the `boolean` repository (`3d-primitive-intersection/app/page.tsx`):
an interactive tool that renders two parametric 3D primitives and recomputes their
CSG boolean intersection every frame.

The embedding is split in two layers:

* a geometry layer (exact rational scalars, polygons, BSP nodes, clipping) that models
  the BSP-based boolean intersection pipeline.  The BSP/CSG library the page calls
  (`CSG.fromMesh`, `CSG.intersect`, `CSG.toMesh` from the `three-csg-ts` dependency) is
  not part of the repository's sources, so that layer is modelled from the spec's own
  description of the algorithm (§4.3-§4.5) and carries `Modelled from the spec:` markers.
* a state layer (primitive factory parameters, transform state, material resolution,
  export scaling, the per-frame result-mesh replace-and-dispose step) translated directly
  from the code of `page.tsx`.

Scalars are exact rationals represented as integer pairs so every definition evaluates
inside the kernel; IEEE-754 rounding of the original JavaScript numbers is not modelled.
-/

set_option maxRecDepth 1000000

namespace CsgModel

/-- Exact rational scalar as an integer numerator/denominator pair.  All constructors
used by the model keep the denominator positive; values are compared through
cross-multiplication so no gcd normalisation is needed. -/
structure Frac where
  num : ℤ
  den : ℤ
deriving DecidableEq

/-- Embed an integer as a scalar. -/
def Frac.ofInt (n : ℤ) : Frac := ⟨n, 1⟩

/-- Build a scalar from a numerator and denominator, normalising the sign so the
denominator is nonnegative. -/
def Frac.make (n d : ℤ) : Frac := if d < 0 then ⟨-n, -d⟩ else ⟨n, d⟩

def Frac.add (a b : Frac) : Frac := ⟨a.num * b.den + b.num * a.den, a.den * b.den⟩

def Frac.sub (a b : Frac) : Frac := ⟨a.num * b.den - b.num * a.den, a.den * b.den⟩

def Frac.mul (a b : Frac) : Frac := ⟨a.num * b.num, a.den * b.den⟩

def Frac.div (a b : Frac) : Frac := Frac.make (a.num * b.den) (a.den * b.num)

def Frac.neg (a : Frac) : Frac := ⟨-a.num, a.den⟩

/-- Strict order test, valid for scalars with positive denominators. -/
def Frac.blt (a b : Frac) : Bool := a.num * b.den < b.num * a.den

/-- Two scalar representations denote the same rational number. -/
def Frac.Equiv (a b : Frac) : Prop := a.num * b.den = b.num * a.den

instance (a b : Frac) : Decidable (a.Equiv b) := by
  unfold Frac.Equiv
  infer_instance

def fracMax (a b : Frac) : Frac := if a.blt b then b else a

def fracMin (a b : Frac) : Frac := if b.blt a then b else a

/-- 3D vector over exact rational scalars (models `THREE.Vector3`). -/
structure Vec3 where
  x : Frac
  y : Frac
  z : Frac
deriving DecidableEq

def Vec3.zero : Vec3 := ⟨⟨0, 1⟩, ⟨0, 1⟩, ⟨0, 1⟩⟩

def Vec3.add (a b : Vec3) : Vec3 := ⟨a.x.add b.x, a.y.add b.y, a.z.add b.z⟩

def Vec3.sub (a b : Vec3) : Vec3 := ⟨a.x.sub b.x, a.y.sub b.y, a.z.sub b.z⟩

def Vec3.scaleBy (c : Frac) (v : Vec3) : Vec3 := ⟨c.mul v.x, c.mul v.y, c.mul v.z⟩

def Vec3.dot (a b : Vec3) : Frac := ((a.x.mul b.x).add (a.y.mul b.y)).add (a.z.mul b.z)

def Vec3.cross (a b : Vec3) : Vec3 :=
  ⟨(a.y.mul b.z).sub (a.z.mul b.y),
   (a.z.mul b.x).sub (a.x.mul b.z),
   (a.x.mul b.y).sub (a.y.mul b.x)⟩

/-- Linear interpolation between two points (used when a splitting plane cuts an edge). -/
def Vec3.lerp (a b : Vec3) (t : Frac) : Vec3 := a.add (Vec3.scaleBy t (b.sub a))

/-- Componentwise equality of the denoted rational vectors. -/
def Vec3.Equiv (a b : Vec3) : Prop := a.x.Equiv b.x ∧ a.y.Equiv b.y ∧ a.z.Equiv b.z

instance (a b : Vec3) : Decidable (a.Equiv b) := by
  unfold Vec3.Equiv
  infer_instance

/-- Oriented plane `normal ⬝ p = w`.  Modelled from the spec: the BSP layer splits
polygons by planes; the normal is kept unnormalised (the plane equation is scaled by a
positive factor), which leaves every side classification of the evaluated scenes
unchanged and keeps the arithmetic rational. -/
structure Plane where
  normal : Vec3
  w : Frac
deriving DecidableEq

/-- Plane through three points, oriented by the right-hand rule. -/
def planeFromPoints (a b c : Vec3) : Plane :=
  let n := (b.sub a).cross (c.sub a)
  ⟨n, n.dot a⟩

/-- Modelled from the spec: a planar convex polygon of the polygon soup — a sequence of
3D vertices plus its supporting plane (§3 "Polygon Soup"). -/
structure Polygon where
  vertices : List Vec3
  plane : Plane
deriving DecidableEq

/-- Build a polygon from its vertex loop, deriving the plane from the first three
vertices. -/
def Polygon.ofVertices (vs : List Vec3) : Polygon :=
  match vs with
  | a :: b :: c :: _ => ⟨vs, planeFromPoints a b c⟩
  | _ => ⟨vs, ⟨Vec3.zero, ⟨0, 1⟩⟩⟩

/-- Modelled from the spec: the fixed epsilon tolerance used for coplanar
classification, applied consistently in both operand directions (§4.4). -/
def csgEps : Frac := ⟨1, 100000⟩

/-- Side classification of one vertex against a plane:
`0` coplanar, `1` in front, `2` behind. -/
def Plane.typeOfVertex (p : Plane) (v : Vec3) : ℕ :=
  let t := (p.normal.dot v).sub p.w
  if t.blt csgEps.neg then 2 else if csgEps.blt t then 1 else 0

/-- Bitwise-or of the vertex classifications: `0` coplanar, `1` front, `2` back,
`3` spanning. -/
def Plane.typeOfPolygon (p : Plane) (poly : Polygon) : ℕ :=
  poly.vertices.foldl (fun acc v => acc ||| p.typeOfVertex v) 0

/-- Walk the edges of a spanning polygon, distributing each vertex to the front and
back loops and inserting the edge/plane crossing point on spanning edges. -/
def Plane.splitSpanning (p : Plane) (poly : Polygon) : List Vec3 × List Vec3 :=
  let vs := poly.vertices
  let n := vs.length
  (List.range n).foldl
    (fun acc i =>
      let vi := vs.getD i Vec3.zero
      let vj := vs.getD ((i + 1) % n) Vec3.zero
      let ti := p.typeOfVertex vi
      let tj := p.typeOfVertex vj
      let acc1 : List Vec3 × List Vec3 :=
        (if ti ≠ 2 then acc.1 ++ [vi] else acc.1,
         if ti ≠ 1 then acc.2 ++ [vi] else acc.2)
      if (ti ||| tj) = 3 then
        let t := (p.w.sub (p.normal.dot vi)).div (p.normal.dot (vj.sub vi))
        let v := vi.lerp vj t
        (acc1.1 ++ [v], acc1.2 ++ [v])
      else acc1)
    ([], [])

/-- Output of splitting one polygon by one plane. -/
structure SplitOut where
  coFront : List Polygon
  coBack : List Polygon
  front : List Polygon
  back : List Polygon

/-- Modelled from the spec: split a polygon by a plane into coplanar-front,
coplanar-back, front and back parts; fragments that keep fewer than three vertices are
dropped as degenerate (§4.3 tolerates silently dropping degenerate fragments). -/
def Plane.splitPolygon (p : Plane) (poly : Polygon) : SplitOut :=
  match p.typeOfPolygon poly with
  | 0 =>
      if Frac.blt ⟨0, 1⟩ (p.normal.dot poly.plane.normal) then ⟨[poly], [], [], []⟩
      else ⟨[], [poly], [], []⟩
  | 1 => ⟨[], [], [poly], []⟩
  | 2 => ⟨[], [], [], [poly]⟩
  | _ =>
      let fb := p.splitSpanning poly
      ⟨[], [],
       if 3 ≤ fb.1.length then [{ vertices := fb.1, plane := poly.plane }] else [],
       if 3 ≤ fb.2.length then [{ vertices := fb.2, plane := poly.plane }] else []⟩

/-- Split a whole list of polygons by one plane, concatenating the four output lists. -/
def Plane.splitAll (p : Plane) (ps : List Polygon) : SplitOut :=
  ps.foldl
    (fun acc q =>
      let s := p.splitPolygon q
      ⟨acc.coFront ++ s.coFront, acc.coBack ++ s.coBack,
       acc.front ++ s.front, acc.back ++ s.back⟩)
    ⟨[], [], [], []⟩

/-- Modelled from the spec: a BSP node holds a splitting plane, the coplanar polygons
stored at the node, and front/back child subtrees owned by the node (§3 "BSP Node");
`leaf` stands for an absent subtree. -/
inductive Node where
  | leaf : Node
  | node (plane : Plane) (polygons : List Polygon) (front : Node) (back : Node)

/-- Recursive BSP construction: the first polygon's plane becomes the splitting plane,
the rest are split and pushed down.  One unit of fuel is consumed per level; since each
input polygon contributes at most one fragment to the front list and one to the back
list, fuel equal to the polygon count always suffices. -/
def buildNode : ℕ → List Polygon → Node
  | _, [] => .leaf
  | 0, _ :: _ => .leaf
  | fuel + 1, p :: rest =>
      let s := p.plane.splitAll rest
      .node p.plane (p :: (s.coFront ++ s.coBack)) (buildNode fuel s.front)
        (buildNode fuel s.back)

/-- Modelled from the spec: the BSP Converter `fromMesh`-style tree construction from a
world-space polygon soup (§4.3). -/
def Node.fromPolygons (ps : List Polygon) : Node := buildNode ps.length ps

/-- The polygon soup recovered from a tree (its traversal, §4.3). -/
def Node.allPolygons : Node → List Polygon
  | .leaf => []
  | .node _ ps f b => ps ++ (f.allPolygons ++ b.allPolygons)

/-- Split a polygon list by a node plane for clipping: coplanar-front polygons travel
with the front fragments and coplanar-back polygons with the back fragments. -/
def clipSplit (p : Plane) (ps : List Polygon) : List Polygon × List Polygon :=
  ps.foldl
    (fun acc q =>
      let s := p.splitPolygon q
      (acc.1 ++ s.coFront ++ s.front, acc.2 ++ s.coBack ++ s.back))
    ([], [])

/-- Modelled from the spec: clip a polygon soup against a solid's BSP tree, keeping
only the fragments lying in the "inside" half-space of that solid (§4.4).  A fragment
that ends in front of every plane on its path (an absent front child) is outside the
solid and is dropped; a fragment that ends behind an absent back child is inside and is
kept. -/
def Node.clipInside : Node → List Polygon → List Polygon
  | .leaf, _ => []
  | .node pl _ f b, ps =>
      let s := clipSplit pl ps
      let keptBack : List Polygon :=
        match b with
        | .leaf => s.2
        | _ => b.clipInside s.2
      f.clipInside s.1 ++ keptBack

/-- Modelled from the spec: the Boolean Intersection Engine (§4.4) — the library call
`bspA.intersect(bspB)` of `three-csg-ts` is not part of the repository sources.  Clip
`a`'s polygons against `b`'s splitting planes keeping only fragments inside `b`,
symmetrically clip `b`'s polygons against `a`, and recombine the two retained fragment
sets: this is the polygon soup of the intersection solid. -/
def intersectPolys (a b : Node) : List Polygon :=
  b.clipInside a.allPolygons ++ a.clipInside b.allPolygons

/-- The intersection result as a BSP tree (the recombination step of §4.4). -/
def intersectBsp (a b : Node) : Node := Node.fromPolygons (intersectPolys a b)

/-- Triangle polygon from three vertices. -/
def mkTri (a b c : Vec3) : Polygon := Polygon.ofVertices [a, b, c]

/-- A quadrilateral face triangulated into two triangles, as a triangulated mesh
presents it to the BSP converter. -/
def mkQuad (a b c d : Vec3) : List Polygon := [mkTri a b c, mkTri a c d]

/-- Modelled from the spec: the triangle soup of the unit box produced by the Primitive
Factory for the `box` kind (`BoxGeometry(1, 1, 1)`, faces at `±1/2`, outward
orientation); the tessellator of the rendering library is not part of the repository
sources. -/
def unitBoxTriangles : List Polygon :=
  let h : Frac := ⟨1, 2⟩
  let m : Frac := ⟨-1, 2⟩
  let v : Frac → Frac → Frac → Vec3 := fun a b c => ⟨a, b, c⟩
  mkQuad (v h m m) (v h h m) (v h h h) (v h m h) ++
    mkQuad (v m m m) (v m m h) (v m h h) (v m h m) ++
    mkQuad (v m h m) (v m h h) (v h h h) (v h h m) ++
    mkQuad (v m m m) (v h m m) (v h m h) (v m m h) ++
    mkQuad (v m m h) (v h m h) (v h h h) (v m h h) ++
    mkQuad (v m m m) (v m h m) (v h h m) (v h m m)

/-- Apply a mesh's world placement to one vertex for the rotation-free case:
per-axis scale followed by translation (the scenes evaluated below all have zero
rotation, so the Euler factor of the world matrix is the identity). -/
def bakeVertex (scale pos v : Vec3) : Vec3 :=
  ⟨(scale.x.mul v.x).add pos.x, (scale.y.mul v.y).add pos.y, (scale.z.mul v.z).add pos.z⟩

/-- Modelled from the spec: `CSG.fromMesh` bakes the mesh's finalized world transform
into the vertex positions before tree conversion (§4.3); polygon planes are re-derived
from the transformed vertices. -/
def bakePolygons (scale pos : Vec3) (ps : List Polygon) : List Polygon :=
  ps.map (fun p => Polygon.ofVertices (p.vertices.map (bakeVertex scale pos)))

/-- World-space triangle soup of a box primitive with the given per-axis size and
centre position (size acts as the mesh scale on the unit box, as `updatePrimitive`
sets it). -/
def boxMeshWorld (scale pos : Vec3) : List Polygon := bakePolygons scale pos unitBoxTriangles

/-- Extent (max minus min) of the polygon soup's vertices along one coordinate;
`0` for an empty soup. -/
def extentAlong (f : Vec3 → Frac) (ps : List Polygon) : Frac :=
  let cs := ((ps.map Polygon.vertices).flatten).map f
  match cs with
  | [] => ⟨0, 1⟩
  | c :: rest => (rest.foldl fracMax c).sub (rest.foldl fracMin c)

/-- Axis-aligned bounding-box extents of a polygon soup. -/
def bboxExtents (ps : List Polygon) : Vec3 :=
  ⟨extentAlong (fun v => v.x) ps, extentAlong (fun v => v.y) ps,
   extentAlong (fun v => v.z) ps⟩

/-! ### State layer: definitions translated from `3d-primitive-intersection/app/page.tsx` -/

/-- The eight shape kinds of `primitiveTypes` (page.tsx line 23). -/
inductive PrimitiveType where
  | box | cylinder | sphere | cone | pyramid | torus | dodecahedron | octahedron
deriving DecidableEq

/-- A geometry value as the constructor call that produced it, mirroring the
`THREE.*Geometry` constructors invoked by `createPrimitive`. -/
inductive Geometry where
  | boxGeometry (width height depth : ℚ)
  | cylinderGeometry (radiusTop radiusBottom height : ℚ) (radialSegments : ℕ)
  | sphereGeometry (radius : ℚ) (widthSegments heightSegments : ℕ)
  | coneGeometry (radius height : ℚ) (radialSegments : ℕ)
  | torusGeometry (radius tube : ℚ) (radialSegments tubularSegments : ℕ)
  | dodecahedronGeometry (radius : ℚ)
  | octahedronGeometry (radius : ℚ)
deriving DecidableEq

/-- The Primitive Factory (page.tsx lines 68-87): an exhaustive switch over the eight
shape kinds with no error branch; `pyramid` is a 4-segment cone. -/
def createPrimitive : PrimitiveType → Geometry
  | .box => .boxGeometry 1 1 1
  | .cylinder => .cylinderGeometry 0.5 0.5 1 32
  | .sphere => .sphereGeometry 0.5 32 32
  | .cone => .coneGeometry 0.5 1 32
  | .pyramid => .coneGeometry 0.5 1 4
  | .torus => .torusGeometry 0.5 0.25 16 100
  | .dodecahedron => .dodecahedronGeometry 0.5
  | .octahedron => .octahedronGeometry 0.5

/-- Modelled from the spec: the number of triangles each geometry tessellates into.
The tessellator lives in the rendering library, which is not part of the repository
sources; the counts follow its documented construction at the default segment counts
used here (box: 6 faces of 2 triangles; cylinder: side quads plus two cap fans;
sphere: a widthSegments x heightSegments grid whose two pole rows are single
triangles; cone: side fan plus bottom cap; torus: a full quad grid; dodecahedron: 12
pentagons fanned into 36 triangles; octahedron: 8 faces). -/
def triangleCount : Geometry → ℕ
  | .boxGeometry _ _ _ => 12
  | .cylinderGeometry _ _ _ seg => 2 * seg + 2 * seg
  | .sphereGeometry _ ws hs => 2 * ws * hs - 2 * ws
  | .coneGeometry _ _ seg => seg + seg
  | .torusGeometry _ _ rs ts => 2 * rs * ts
  | .dodecahedronGeometry _ => 36
  | .octahedronGeometry _ => 8

/-- The five material presets of `materialOptions` (page.tsx line 24). -/
inductive MaterialType where
  | clay | gold | silver | clearcoat | subsurface
deriving DecidableEq

/-- The user-adjustable numeric material parameters (page.tsx lines 54-66). -/
structure MaterialParams where
  clearcoatRoughness : ℚ
  clearcoat : ℚ
  metalness : ℚ
  roughness : ℚ
  thicknessDistortion : ℚ
  thicknessAmbient : ℚ
  thicknessAttenuation : ℚ
  thicknessPower : ℚ
  thicknessScale : ℚ
  albedo : String
  opacity : ℚ
deriving DecidableEq

/-- The value content of the material produced by `createMaterial`: the shading
coefficients actually set on the `THREE` material object.  Fields a branch does not
set are `0`.  The asynchronous texture loads of the clearcoat and subsurface branches
are off the value path and are not modelled. -/
structure SurfaceDescriptor where
  transparent : Bool
  opacity : ℚ
  color : String
  metalness : ℚ
  roughness : ℚ
  clearcoat : ℚ
  clearcoatRoughness : ℚ
  transmission : ℚ
  thickness : ℚ
deriving DecidableEq

/-- The Material Resolver `createMaterial` (page.tsx lines 89-149).  `baseParams` sets
`transparent` to the negation of `isIntersection` and `opacity` to `1` for the
intersection surface and to the user's `params.opacity` otherwise; every preset branch
spreads `baseParams`.  The switch's `default` branch is the clay preset. -/
def createMaterial (material : MaterialType) (isDarkMode : Bool) (params : MaterialParams)
    (isIntersection : Bool) : SurfaceDescriptor :=
  let transparent := !isIntersection
  let opacity := if isIntersection then 1 else params.opacity
  match material with
  | .gold =>
      { transparent := transparent, opacity := opacity, color := "#FFD700",
        metalness := 0.9, roughness := 0.1, clearcoat := 0, clearcoatRoughness := 0,
        transmission := 0, thickness := 0 }
  | .silver =>
      { transparent := transparent, opacity := opacity, color := "#C0C0C0",
        metalness := 0.9, roughness := 0.2, clearcoat := 0, clearcoatRoughness := 0,
        transmission := 0, thickness := 0 }
  | .clearcoat =>
      { transparent := transparent, opacity := opacity, color := params.albedo,
        metalness := params.metalness, roughness := params.roughness,
        clearcoat := params.clearcoat, clearcoatRoughness := params.clearcoatRoughness,
        transmission := 0, thickness := 0 }
  | .subsurface =>
      { transparent := transparent, opacity := opacity, color := params.albedo,
        metalness := 0, roughness := 0.3, clearcoat := 0, clearcoatRoughness := 0,
        transmission := 1, thickness := 0.5 }
  | .clay =>
      { transparent := transparent, opacity := opacity,
        color := if isDarkMode then "#888888" else "#CCCCCC",
        metalness := 0.1, roughness := 0.8, clearcoat := 0, clearcoatRoughness := 0,
        transmission := 0, thickness := 0 }

/-- Triple of rational numbers for the UI-owned parameter vectors
(size, rotation in degrees, position). -/
structure Vec3Q where
  x : ℚ
  y : ℚ
  z : ℚ
deriving DecidableEq

/-- The exact rational value of the IEEE-754 double `Math.PI`
(`884279719003555 * 2^-48`). -/
def mathPI : ℚ := 884279719003555 / 281474976710656

/-- The degree-to-radian conversion `r * Math.PI / 180` applied by `updatePrimitive`
and `downloadScene`. -/
def degToRad (r : ℚ) : ℚ := r * mathPI / 180

/-- Componentwise degree-to-radian conversion of a rotation vector. -/
def degToRadVec (r : Vec3Q) : Vec3Q := ⟨degToRad r.x, degToRad r.y, degToRad r.z⟩

/-- The transform-relevant state of a source mesh: its assigned geometry and its
scale / rotation (radians) / position placement. -/
structure MeshState where
  geometry : Geometry
  scale : Vec3Q
  rotationRad : Vec3Q
  position : Vec3Q
deriving DecidableEq

/-- The Transform Applier `updatePrimitive` (page.tsx lines 187-193): assigns the
geometry and sets absolute scale, rotation (degrees converted to radians) and
position on the mesh.  Nothing of the previous state is read. -/
def updatePrimitive (_m : MeshState) (geometry : Geometry)
    (size rot pos : Vec3Q) : MeshState :=
  { geometry := geometry,
    scale := size,
    rotationRad := degToRadVec rot,
    position := pos }

/-- The `if (!mesh) return` guard of `updatePrimitive`: a missing mesh is returned
unchanged. -/
def updatePrimitiveRef (m : Option MeshState) (geometry : Geometry)
    (size rot pos : Vec3Q) : Option MeshState :=
  m.map (fun mm => updatePrimitive mm geometry size rot pos)

/-- A 4x4 transform matrix with the row-major entry names of `THREE.Matrix4.set`. -/
structure Matrix4 where
  n11 : ℚ
  n12 : ℚ
  n13 : ℚ
  n14 : ℚ
  n21 : ℚ
  n22 : ℚ
  n23 : ℚ
  n24 : ℚ
  n31 : ℚ
  n32 : ℚ
  n33 : ℚ
  n34 : ℚ
  n41 : ℚ
  n42 : ℚ
  n43 : ℚ
  n44 : ℚ
deriving DecidableEq

/-- `new THREE.Matrix4()`: the identity matrix. -/
def identity4 : Matrix4 :=
  { n11 := 1, n12 := 0, n13 := 0, n14 := 0,
    n21 := 0, n22 := 1, n23 := 0, n24 := 0,
    n31 := 0, n32 := 0, n33 := 1, n34 := 0,
    n41 := 0, n42 := 0, n43 := 0, n44 := 1 }

/-- The translation column of a transform matrix. -/
def translationOf (m : Matrix4) : Vec3Q := ⟨m.n14, m.n24, m.n34⟩

/-- The result mesh built by `CSG.toMesh`: its geometry (the intersection polygon
soup), the local matrix it was handed, the shadow flags set by
`calculateIntersection`, and the disposal state of its geometry/material pair. -/
structure ResMesh where
  id : ℕ
  polys : List Polygon
  matrix : Matrix4
  geometryDisposed : Bool
  materialDisposed : Bool
  castShadow : Bool
  receiveShadow : Bool

/-- A result mesh whose geometry or material has not been disposed yet. -/
def ResMesh.undisposed (m : ResMesh) : Bool := !m.geometryDisposed || !m.materialDisposed

/-- The scene-lifecycle state touched by `calculateIntersection`: the `intersectionRef`
slot, the already-removed result meshes (kept for resource accounting), the ids of the
result meshes currently inserted in the scene, an id counter for fresh meshes, and the
visibility flags of the two source primitives. -/
structure CsgState where
  intersectionRef : Option ResMesh
  removedMeshes : List ResMesh
  sceneIds : List ℕ
  nextId : ℕ
  prim1Visible : Bool
  prim2Visible : Bool

/-- The state before the first frame: no result mesh exists. -/
def initialCsgState : CsgState :=
  { intersectionRef := none, removedMeshes := [], sceneIds := [], nextId := 0,
    prim1Visible := true, prim2Visible := true }

/-- The per-frame inputs of one `calculateIntersection` call: the world-space polygon
soups of the two source meshes (their transforms already baked in, as `CSG.fromMesh`
receives them), the show-primitives toggle, and the current selection. -/
structure FrameIn where
  polysA : List Polygon
  polysB : List Polygon
  showIntersection : Bool
  selectedObject : Option ℕ

/-- One invocation of `calculateIntersection` (page.tsx lines 195-234): convert both
source meshes to BSP trees, intersect them, then — if a previous result mesh exists —
remove it from the scene and dispose its geometry and material, build the new result
mesh via `CSG.toMesh` with a fresh identity matrix and shadow flags, add it to the
scene, and set each source primitive visible exactly when the show-primitives toggle
is on or that primitive is the selected object. -/
def calcStep (s : CsgState) (f : FrameIn) : CsgState :=
  let bspA := Node.fromPolygons f.polysA
  let bspB := Node.fromPolygons f.polysB
  let result := intersectPolys bspA bspB
  let cleaned : List ℕ × List ResMesh :=
    match s.intersectionRef with
    | none => (s.sceneIds, s.removedMeshes)
    | some m =>
        (s.sceneIds.filter (fun i => i != m.id),
         { m with geometryDisposed := true, materialDisposed := true } :: s.removedMeshes)
  let newMesh : ResMesh :=
    { id := s.nextId, polys := result, matrix := identity4,
      geometryDisposed := false, materialDisposed := false,
      castShadow := true, receiveShadow := true }
  { intersectionRef := some newMesh,
    removedMeshes := cleaned.2,
    sceneIds := s.nextId :: cleaned.1,
    nextId := s.nextId + 1,
    prim1Visible := f.showIntersection || f.selectedObject == some 1,
    prim2Visible := f.showIntersection || f.selectedObject == some 2 }

/-- A run of consecutive recomputation frames. -/
def runFrames (s : CsgState) (frames : List FrameIn) : CsgState :=
  frames.foldl calcStep s

/-- Number of live (un-disposed) result meshes across the current slot and every
removed mesh. -/
def liveResultCount (s : CsgState) : ℕ :=
  (match s.intersectionRef with
   | none => 0
   | some m => if m.undisposed then 1 else 0)
  + (s.removedMeshes.filter ResMesh.undisposed).length

/-- The polygon soup of the current result mesh, when one exists. -/
def resultPolys (s : CsgState) : Option (List Polygon) :=
  s.intersectionRef.map (fun m => m.polys)

/-- The local matrix of the current result mesh, when one exists. -/
def resultMatrix (s : CsgState) : Option Matrix4 :=
  s.intersectionRef.map (fun m => m.matrix)

/-- Millimeter-to-meter conversion of `downloadScene` (page.tsx lines 494-496):
each component divided by 1000. -/
def convertToMeters (v : Vec3Q) : Vec3Q := ⟨v.x / 1000, v.y / 1000, v.z / 1000⟩

/-- The value content of the exported document: the two source primitives' transforms
as `downloadScene` sets them on the export scene, plus the custom unit metadata
written into `gltf.asset.extras.units`. -/
structure ExportScene where
  size1m : Vec3Q
  size2m : Vec3Q
  position1m : Vec3Q
  position2m : Vec3Q
  rotation1 : Vec3Q
  rotation2 : Vec3Q
  units : String
deriving DecidableEq

/-- The export path `downloadScene` (page.tsx lines 488-537): sizes and positions are
converted from millimeters to meters (divide by 1000) at export time only, rotations
are converted from degrees to radians unscaled, and the metadata field `units` is set
to `"millimeters"`. -/
def downloadScene (size1 size2 rotation1 rotation2 position1 position2 : Vec3Q) :
    ExportScene :=
  { size1m := convertToMeters size1,
    size2m := convertToMeters size2,
    position1m := convertToMeters position1,
    position2m := convertToMeters position2,
    rotation1 := degToRadVec rotation1,
    rotation2 := degToRadVec rotation2,
    units := "millimeters" }

/-- Re-importing at the declared millimeter scale: multiply each exported component
back by 1000. -/
def backToMillimeters (v : Vec3Q) : Vec3Q := ⟨v.x * 1000, v.y * 1000, v.z * 1000⟩

/-! ### Concrete scenes used by the evaluated test properties -/

/-- World-space triangle soup of a unit box translated to `[100, 0, 0]`. -/
def disjointBoxA : List Polygon :=
  boxMeshWorld ⟨Frac.ofInt 1, Frac.ofInt 1, Frac.ofInt 1⟩
    ⟨Frac.ofInt 100, Frac.ofInt 0, Frac.ofInt 0⟩

/-- World-space triangle soup of a unit box translated to `[-100, 0, 0]`. -/
def disjointBoxB : List Polygon :=
  boxMeshWorld ⟨Frac.ofInt 1, Frac.ofInt 1, Frac.ofInt 1⟩
    ⟨Frac.ofInt (-100), Frac.ofInt 0, Frac.ofInt 0⟩

/-- A recomputation frame whose source meshes are the two disjoint unit boxes. -/
def disjointFrame : FrameIn :=
  { polysA := disjointBoxA, polysB := disjointBoxB,
    showIntersection := true, selectedObject := none }

/-- Box of size `[25, 25, 25]` at position `[-12.5, 0, 0]`. -/
def overlapBoxA : List Polygon :=
  boxMeshWorld ⟨Frac.ofInt 25, Frac.ofInt 25, Frac.ofInt 25⟩
    ⟨⟨-25, 2⟩, Frac.ofInt 0, Frac.ofInt 0⟩

/-- Box of size `[25, 25, 25]` at position `[-25, 0, 0]` (50% overlap with
`overlapBoxA` along the x axis). -/
def overlapBoxB : List Polygon :=
  boxMeshWorld ⟨Frac.ofInt 25, Frac.ofInt 25, Frac.ofInt 25⟩
    ⟨Frac.ofInt (-25), Frac.ofInt 0, Frac.ofInt 0⟩

/-- The intersection polygon soup of the 50%-overlap scenario. -/
def overlapResult : List Polygon :=
  intersectPolys (Node.fromPolygons overlapBoxA) (Node.fromPolygons overlapBoxB)

/-- The state invariant maintained by the recomputation loop: every removed result
mesh has its geometry and material disposed, and the current result mesh — when one
exists — is un-disposed and is the only result mesh in the scene. -/
def CsgInv (s : CsgState) : Prop :=
  (∀ m ∈ s.removedMeshes, m.geometryDisposed = true ∧ m.materialDisposed = true)
  ∧ (match s.intersectionRef with
     | none => s.sceneIds = []
     | some m =>
         s.sceneIds = [m.id] ∧ m.geometryDisposed = false ∧ m.materialDisposed = false)

/-! ### Helper lemmas for the frame-loop invariant -/

theorem csgInv_initial : CsgInv initialCsgState := by
  constructor
  · intro m hm
    simp [initialCsgState] at hm
  · simp [initialCsgState]

theorem csgInv_calcStep (s : CsgState) (f : FrameIn) (h : CsgInv s) :
    CsgInv (calcStep s f) := by
  obtain ⟨hrem, hcur⟩ := h
  cases hs : s.intersectionRef with
  | none =>
      rw [hs] at hcur
      refine ⟨?_, ?_⟩
      · intro m hm
        simp only [calcStep, hs] at hm
        exact hrem m hm
      · simp only [calcStep, hs, hcur]
        exact ⟨trivial, trivial, trivial⟩
  | some old =>
      rw [hs] at hcur
      obtain ⟨hids, hg, hmat⟩ := hcur
      refine ⟨?_, ?_⟩
      · intro m hm
        simp only [calcStep, hs, List.mem_cons] at hm
        rcases hm with hm | hm
        · subst hm
          constructor <;> rfl
        · exact hrem m hm
      · simp only [calcStep, hs, hids]
        simp

theorem csgInv_runFrames (frames : List FrameIn) (s : CsgState) (h : CsgInv s) :
    CsgInv (runFrames s frames) := by
  induction frames generalizing s with
  | nil => exact h
  | cons f fs ih => exact ih (calcStep s f) (csgInv_calcStep s f h)

theorem runFrames_isSome (frames : List FrameIn) (s : CsgState)
    (h : s.intersectionRef.isSome = true) :
    (runFrames s frames).intersectionRef.isSome = true := by
  induction frames generalizing s with
  | nil => exact h
  | cons f fs ih => exact ih (calcStep s f) rfl

theorem liveResultCount_of_inv (s : CsgState) (h : CsgInv s)
    (hsome : s.intersectionRef.isSome = true) :
    liveResultCount s = 1 ∧ s.sceneIds.length = 1 := by
  obtain ⟨hrem, hcur⟩ := h
  cases hs : s.intersectionRef with
  | none => rw [hs] at hsome; simp at hsome
  | some m =>
      rw [hs] at hcur
      obtain ⟨hids, hg, hmat⟩ := hcur
      constructor
      · unfold liveResultCount
        rw [hs]
        have hfilter : s.removedMeshes.filter ResMesh.undisposed = [] := by
          rw [List.filter_eq_nil_iff]
          intro a ha
          obtain ⟨hag, ham⟩ := hrem a ha
          simp [ResMesh.undisposed, hag, ham]
        rw [hfilter]
        simp [ResMesh.undisposed, hg, hmat]
      · rw [hids]
        rfl

/-! ### Claim theorems -/

/-- C1: the boolean intersection engine is commutative — for all BSP trees `a` and
`b`, the polygon soup of `intersect(a, b)` equals that of `intersect(b, a)` up to
reordering of the polygons. -/
theorem intersect_comm_perm (a b : Node) :
    List.Perm (intersectPolys a b) (intersectPolys b a) :=
  List.perm_append_comm

/-- C2: two disjoint unit boxes translated to `[100,0,0]` and `[-100,0,0]` intersect
to an empty polygon soup (zero polygons); the recomputation step still converts this
empty result into a result mesh and adds it to the scene — a valid state, not an
error. -/
theorem disjoint_intersection_empty :
    intersectPolys (Node.fromPolygons disjointBoxA) (Node.fromPolygons disjointBoxB) = []
    ∧ resultPolys (calcStep initialCsgState disjointFrame) = some []
    ∧ (calcStep initialCsgState disjointFrame).sceneIds.length = 1 := by
  decide

/-- C3: after any nonempty run of consecutive recomputation frames, exactly one
un-disposed result mesh (geometry+material pair) exists, exactly one result mesh is in
the scene, and every superseded result mesh had its geometry and material disposed in
the step that replaced it. -/
theorem frames_single_live_result (frames : List FrameIn) (h : frames ≠ []) :
    liveResultCount (runFrames initialCsgState frames) = 1
    ∧ (runFrames initialCsgState frames).sceneIds.length = 1
    ∧ ∀ m ∈ (runFrames initialCsgState frames).removedMeshes,
        m.geometryDisposed = true ∧ m.materialDisposed = true := by
  have hinv : CsgInv (runFrames initialCsgState frames) :=
    csgInv_runFrames frames initialCsgState csgInv_initial
  have hsome : (runFrames initialCsgState frames).intersectionRef.isSome = true := by
    cases frames with
    | nil => exact absurd rfl h
    | cons f fs => exact runFrames_isSome fs (calcStep initialCsgState f) rfl
  obtain ⟨hlive, hscene⟩ :=
    liveResultCount_of_inv (runFrames initialCsgState frames) hinv hsome
  exact ⟨hlive, hscene, hinv.1⟩

/-- Witness for C3 at a concrete one-frame run. -/
theorem frames_single_live_result_witness :
    (([⟨[], [], true, none⟩] : List FrameIn) ≠ [])
    ∧ (liveResultCount (runFrames initialCsgState [⟨[], [], true, none⟩]) = 1
       ∧ (runFrames initialCsgState [⟨[], [], true, none⟩]).sceneIds.length = 1
       ∧ ∀ m ∈ (runFrames initialCsgState [⟨[], [], true, none⟩]).removedMeshes,
           m.geometryDisposed = true ∧ m.materialDisposed = true) :=
  ⟨List.cons_ne_nil _ _,
   frames_single_live_result [⟨[], [], true, none⟩] (List.cons_ne_nil _ _)⟩

/-- C4: the Transform Applier is idempotent — applying `updatePrimitive` twice with
identical geometry, size, rotation-in-degrees and position yields the same transform
state as applying it once: it sets absolute state and reads nothing of the previous
state, so re-application accumulates no drift. -/
theorem updatePrimitive_idempotent (m : MeshState) (g : Geometry)
    (size rot pos : Vec3Q) :
    updatePrimitive (updatePrimitive m g size rot pos) g size rot pos
      = updatePrimitive m g size rot pos := rfl

/-- C5: the box of size `[25,25,25]` at `[-12.5,0,0]` intersected with the box of size
`[25,25,25]` at `[-25,0,0]` (50% overlap along x) yields a result whose bounding-box
extent is exactly `12.5` along x and exactly `25` — the boxes' common cross-section —
along y and z. -/
theorem overlap_bbox_extents :
    Vec3.Equiv (bboxExtents overlapResult)
      ⟨⟨25, 2⟩, Frac.ofInt 25, Frac.ofInt 25⟩ := by
  decide

/-- C6: `createPrimitive` handles the closed eight-kind set exhaustively (it is a
total function with no error branch) and every kind yields a non-empty unit-scale
geometry; in particular the box is the unit box, the sphere has radius `0.5` with a
32x32 tessellation, and the torus a 16x100 tessellation. -/
theorem createPrimitive_exhaustive_nonempty :
    (∀ k : PrimitiveType, 0 < triangleCount (createPrimitive k))
    ∧ createPrimitive .box = .boxGeometry 1 1 1
    ∧ createPrimitive .sphere = .sphereGeometry 0.5 32 32
    ∧ createPrimitive .torus = .torusGeometry 0.5 0.25 16 100 := by
  refine ⟨fun k => ?_, rfl, rfl, rfl⟩
  cases k <;> decide

/-- C7: export is a millimeter round trip — `downloadScene` scales every size and
position component by exactly `1/1000` at export time, records `"millimeters"` in the
unit metadata field, and multiplying the exported components back by 1000 reproduces
the original millimeter-space sizes and positions exactly. -/
theorem downloadScene_millimeter_roundtrip
    (size1 size2 rot1 rot2 position1 position2 : Vec3Q) :
    (downloadScene size1 size2 rot1 rot2 position1 position2).units = "millimeters"
    ∧ backToMillimeters (downloadScene size1 size2 rot1 rot2 position1 position2).size1m
        = size1
    ∧ backToMillimeters (downloadScene size1 size2 rot1 rot2 position1 position2).size2m
        = size2
    ∧ backToMillimeters
        (downloadScene size1 size2 rot1 rot2 position1 position2).position1m = position1
    ∧ backToMillimeters
        (downloadScene size1 size2 rot1 rot2 position1 position2).position2m
        = position2 := by
  obtain ⟨a1, a2, a3⟩ := size1
  obtain ⟨b1, b2, b3⟩ := size2
  obtain ⟨c1, c2, c3⟩ := position1
  obtain ⟨d1, d2, d3⟩ := position2
  refine ⟨rfl, ?_, ?_, ?_, ?_⟩ <;>
    · simp only [downloadScene, backToMillimeters, convertToMeters, Vec3Q.mk.injEq]
      refine ⟨?_, ?_, ?_⟩ <;> field_simp

/-- C8: for every material preset, dark-mode flag and parameter set, the
`isIntersection` flag of the Material Resolver decides opacity and transparency: the
intersection surface is opaque (opacity `1`, not transparent) and a source surface is
transparent with the user-set opacity. -/
theorem createMaterial_opacity_flag (m : MaterialType) (dark : Bool)
    (params : MaterialParams) :
    ((createMaterial m dark params true).opacity = 1
      ∧ (createMaterial m dark params true).transparent = false)
    ∧ ((createMaterial m dark params false).opacity = params.opacity
      ∧ (createMaterial m dark params false).transparent = true) := by
  cases m <;> simp [createMaterial]

/-- C9: after every recomputation step, source primitive 1 (resp. 2) is visible
exactly when the show-primitives toggle is on or that primitive is the selected
object; a selected primitive therefore stays visible even with the toggle off. -/
theorem calcStep_visibility (s : CsgState) (f : FrameIn) :
    ((calcStep s f).prim1Visible = true
      ↔ (f.showIntersection = true ∨ f.selectedObject = some 1))
    ∧ ((calcStep s f).prim2Visible = true
      ↔ (f.showIntersection = true ∨ f.selectedObject = some 2)) := by
  constructor <;> simp [calcStep]

/-- C10: the result mesh is always built with the identity matrix as its local
transform — its polygon soup is exactly the intersection of the two already-baked
world-space soups, and the identity matrix carries zero translation and an identity
linear part, so the result solid never has a translation, rotation or non-unit scale
of its own. -/
theorem calcStep_result_identity (s : CsgState) (f : FrameIn) :
    resultMatrix (calcStep s f) = some identity4
    ∧ resultPolys (calcStep s f)
        = some (intersectPolys (Node.fromPolygons f.polysA) (Node.fromPolygons f.polysB))
    ∧ translationOf identity4 = ⟨0, 0, 0⟩
    ∧ (identity4.n11 = 1 ∧ identity4.n22 = 1 ∧ identity4.n33 = 1
       ∧ identity4.n12 = 0 ∧ identity4.n13 = 0 ∧ identity4.n21 = 0
       ∧ identity4.n23 = 0 ∧ identity4.n31 = 0 ∧ identity4.n32 = 0) :=
  ⟨rfl, rfl, rfl, rfl, rfl, rfl, rfl, rfl, rfl, rfl, rfl, rfl⟩

end CsgModel
